import Mathlib

/-!
Shallow embedding of the `@umituz/react-native-supabase` package:
the configuration value object and its validator
(`src/domain/value-objects/SupabaseConfig.ts`, re-exported through
`src/application/ports/ISupabaseClient.ts`), the error taxonomy
(`src/domain/errors/SupabaseError.ts`), and the singleton client holder
(`src/infrastructure/config/SupabaseClient.ts`).

Modelling conventions:
* TypeScript `string | null` fields become `Option String`; JavaScript
  truthiness of such a field (`if (this.initializationError)`) is non-null
  AND non-empty, embedded as `jsTruthyStr`.
* JavaScript `a || b` on strings/numbers falls through on the falsy values
  `""` and `0`, embedded as `jsOrStr` / `jsOrNat`; `a ?? b` (nullish
  coalescing) is exactly `Option.getD`.
* The external `createClient` of `@supabase/supabase-js` is opaque to the
  package; its result is modelled as the record of the arguments the holder
  passes to it (`CreatedClient`), and the possibility that it throws is
  modelled by an explicit `Except JsException Unit` outcome argument.
* Thrown JavaScript values are `JsException`: an `Error` carrying a message,
  or any other thrown value.
* The default persistent key-value store (AsyncStorage) is modelled as the
  list of its keys; its three operations' possible failures are Boolean
  outcome arguments.
-/

namespace RNSupabase

/-- JavaScript `String.prototype.includes`: `pat` occurs as a contiguous
substring of `s`. -/
def jsIncludes (s pat : String) : Bool :=
  s.toList.tails.any (fun t => pat.toList.isPrefixOf t)

/-- JavaScript truthiness of a `string | null` value: non-null and non-empty. -/
def jsTruthyStr : Option String → Bool
  | none => false
  | some s => !(s == "")

/-- JavaScript `a || b` where `a` is a `string | undefined`: `b` when `a` is
absent or the empty string. -/
def jsOrStr : Option String → String → String
  | none, d => d
  | some s, d => if s == "" then d else s

/-- JavaScript `a || b` where `a` is a `number | undefined`: `b` when `a` is
absent or `0`. -/
def jsOrNat : Option Nat → Nat → Nat
  | none, d => d
  | some n, d => if n == 0 then d else n

/-- A JavaScript `WhiteSpace` or `LineTerminator` character as
`String.prototype.trim` strips it (the ASCII ones; the wider Unicode space
characters play no role in this package's inputs). -/
def isJsWhitespaceChar (c : Char) : Bool :=
  c == ' ' || c == '\t' || c == '\n' || c == '\r' || c == '\x0b' || c == '\x0c'

/-- JavaScript `String.prototype.trim`: the characters left after stripping
whitespace from both ends. -/
def jsTrim (s : String) : List Char :=
  ((s.toList.dropWhile isJsWhitespaceChar).reverse.dropWhile isJsWhitespaceChar).reverse

/-- A first scheme character per WHATWG: an ASCII letter. -/
def isSchemeHeadChar (c : Char) : Bool := c.isAlpha

/-- A scheme character per WHATWG: letter, digit, `+`, `-` or `.`. -/
def isSchemeChar (c : Char) : Bool :=
  c.isAlphanum || c == '+' || c == '-' || c == '.'

/-- Modelled from the spec: the host's WHATWG `URL` constructor, which the
repository's `validateSupabaseConfig` calls (`new URL(config.url)`) and whose
code is not part of this repository. The spec's words: the url must parse
"to a well-formed URL with scheme http or https". The model accepts
`scheme:rest` where the scheme is a letter followed by scheme characters,
lowercases the scheme, requires a non-empty remainder after slashes for the
special schemes http/https (WHATWG rejects, e.g., `http:`), and returns the
`protocol` string (lowercased scheme plus `:`); a string with no colon, such
as `not-a-url`, does not parse. -/
def parseURLProtocol (s : String) : Option String :=
  match s.toList.findIdx? (fun c => c == ':') with
  | none => none
  | some i =>
    let scheme := s.toList.take i
    let rest := s.toList.drop (i + 1)
    match scheme with
    | [] => none
    | c :: cs =>
      if !(isSchemeHeadChar c && (c :: cs).all isSchemeChar) then none
      else
        let schemeLower := (c :: cs).map Char.toLower
        if (schemeLower == "http".toList || schemeLower == "https".toList)
            && (rest.dropWhile (fun ch => ch == '/')).isEmpty then none
        else some (String.mk schemeLower ++ ":")

/-- The configuration value object (`SupabaseConfig` interface). The optional
caller-supplied storage adapter is opaque to the holder, so it is modelled by
an opaque handle (`Option Nat`); all other fields follow the interface. -/
structure SupabaseConfig where
  url : String
  anonKey : String
  storage : Option Nat := none
  schema : Option String := none
  realtimeHeartbeatIntervalMs : Option Nat := none
  autoRefreshToken : Option Bool := none
  persistSession : Option Bool := none
  detectSessionInUrl : Option Bool := none
  deriving DecidableEq, Repr

/-- The validator's result shape `{ valid: boolean; error?: string }`. -/
structure ValidationResult where
  valid : Bool
  error : Option String := none
  deriving DecidableEq, Repr

/-- `validateSupabaseConfig` of `SupabaseConfig.ts`, line for line. In the
typed embedding `url`/`anonKey` are always strings, so the JavaScript guard
`!config.url || typeof config.url !== 'string'` reduces to the emptiness
test (the empty string is the one falsy string). The `try { new URL(...) }`
block becomes a match on `parseURLProtocol`: a parse failure is the caught
exception branch. -/
def validateSupabaseConfig (config : SupabaseConfig) : ValidationResult :=
  if config.url == "" then
    { valid := false, error := some "Supabase URL is required and must be a string" }
  else if config.anonKey == "" then
    { valid := false, error := some "Supabase anon key is required and must be a string" }
  else
    match parseURLProtocol config.url with
    | none => { valid := false, error := some "Invalid Supabase URL format" }
    | some protocol =>
      if protocol != "http:" && protocol != "https:" then
        { valid := false, error := some "Supabase URL must use http:// or https:// protocol" }
      else if (jsTrim config.anonKey).length == 0 then
        { valid := false, error := some "Supabase anon key cannot be empty" }
      else if jsIncludes config.anonKey "your_supabase_anon_key"
          || jsIncludes config.url "your-project" then
        { valid := false, error := some "Please replace placeholder values with actual Supabase credentials" }
      else
        { valid := true, error := none }

/-- Check 1 of the spec's validator contract: url present (and string-typed,
which the types guarantee). -/
def checkUrlPresent (config : SupabaseConfig) : Option String :=
  if config.url == "" then some "Supabase URL is required and must be a string" else none

/-- Check 2: anon key present (and string-typed). -/
def checkKeyPresent (config : SupabaseConfig) : Option String :=
  if config.anonKey == "" then some "Supabase anon key is required and must be a string" else none

/-- Check 3: url parses to a well-formed URL with scheme http or https. -/
def checkUrlWellFormed (config : SupabaseConfig) : Option String :=
  match parseURLProtocol config.url with
  | none => some "Invalid Supabase URL format"
  | some protocol =>
    if protocol != "http:" && protocol != "https:" then
      some "Supabase URL must use http:// or https:// protocol"
    else none

/-- Check 4: anon key non-empty after trimming. -/
def checkKeyNonBlank (config : SupabaseConfig) : Option String :=
  if (jsTrim config.anonKey).length == 0 then some "Supabase anon key cannot be empty" else none

/-- Check 5: url and key free of the known placeholder substrings. -/
def checkNoPlaceholder (config : SupabaseConfig) : Option String :=
  if jsIncludes config.anonKey "your_supabase_anon_key"
      || jsIncludes config.url "your-project" then
    some "Please replace placeholder values with actual Supabase credentials"
  else none

/-- The spec's five validator checks, in the order the spec lists them. -/
def validationChecks : List (SupabaseConfig → Option String) :=
  [checkUrlPresent, checkKeyPresent, checkUrlWellFormed, checkKeyNonBlank, checkNoPlaceholder]

/-- Running the spec's checks in order, short-circuiting on the first
failure: the first check that answers an error string decides the result. -/
def runChecksInOrder (config : SupabaseConfig) : ValidationResult :=
  match validationChecks.findSome? (fun check => check config) with
  | some e => { valid := false, error := some e }
  | none => { valid := true, error := none }

/-- A thrown JavaScript value: an `Error` instance carrying a message, or
any other thrown value (the holder's catch distinguishes exactly these two
with `error instanceof Error`). -/
inductive JsException where
  | jsError (message : String)
  | nonErrorValue
  deriving DecidableEq, Repr

/-- The message the holder records for a caught construction exception:
`error instanceof Error ? error.message : 'Failed to initialize Supabase client'`. -/
def jsExceptionMessage : JsException → String
  | .jsError m => m
  | .nonErrorValue => "Failed to initialize Supabase client"

/-- The auth storage adapter handed to the external client: the
caller-supplied adapter (opaque handle) or the package's AsyncStorage
wrapper built in `SupabaseClientSingleton.initialize`. -/
inductive StorageAdapter where
  | caller (id : Nat)
  | asyncStorageDefault
  deriving DecidableEq, Repr

/-- `config.storage || { ...AsyncStorage wrapper... }`: a caller-supplied
adapter object is always truthy, so the default is used exactly when none
is supplied. -/
def selectStorage (config : SupabaseConfig) : StorageAdapter :=
  match config.storage with
  | some id => StorageAdapter.caller id
  | none => StorageAdapter.asyncStorageDefault

/-- The external SDK client, modelled as the record of the arguments the
holder passes to `createClient(url, anonKey, options)`: the package never
looks inside the client it constructs. -/
structure CreatedClient where
  url : String
  anonKey : String
  authStorage : StorageAdapter
  autoRefreshToken : Bool
  persistSession : Bool
  detectSessionInUrl : Bool
  dbSchema : String
  realtimeHeartbeatIntervalMs : Nat
  deriving DecidableEq, Repr

/-- The argument record of the holder's `createClient` call: storage as
selected, `config.autoRefreshToken ?? true`, `config.persistSession ?? true`,
`config.detectSessionInUrl ?? false`, `config.schema || 'public'`,
`config.realtimeHeartbeatIntervalMs || 30000`. -/
def createClient (config : SupabaseConfig) : CreatedClient :=
  { url := config.url
    anonKey := config.anonKey
    authStorage := selectStorage config
    autoRefreshToken := config.autoRefreshToken.getD true
    persistSession := config.persistSession.getD true
    detectSessionInUrl := config.detectSessionInUrl.getD false
    dbSchema := jsOrStr config.schema "public"
    realtimeHeartbeatIntervalMs := jsOrNat config.realtimeHeartbeatIntervalMs 30000 }

/-- The error records of `SupabaseError.ts`: a name, a human message and a
string code (the subtypes fix the code; the optional wrapped cause is not
used by the holder and is omitted). -/
structure SupabaseError where
  name : String
  message : String
  code : Option String
  deriving DecidableEq, Repr

/-- `new SupabaseInitializationError(message)`: code `INITIALIZATION_ERROR`. -/
def SupabaseInitializationError (message : String) : SupabaseError :=
  { name := "SupabaseInitializationError", message := message, code := some "INITIALIZATION_ERROR" }

/-- The singleton holder's three mutable fields (`SupabaseClientSingleton`):
the client reference, the initialization-error string and the last stored
configuration, each nullable. -/
structure HolderState where
  client : Option CreatedClient
  initializationError : Option String
  config : Option SupabaseConfig
  deriving DecidableEq, Repr

/-- The holder's state at process start: all three fields null. -/
def emptyHolder : HolderState :=
  { client := none, initializationError := none, config := none }

/-- `SupabaseClientSingleton.initialize(config)` (renamed: Lean reserves the
source's method name). `ctor` is the outcome of the external `createClient`
call: `.ok ()` when it returns normally (the constructed client is then the
argument record `createClient config`), `.error e` when it throws `e`.
Returns the method's return value and the holder's state after the call.
Branches, in source order: return the existing client if one is stored;
return null if a (truthy, i.e. non-empty) initialization error is recorded;
on invalid configuration record `validation.error || 'Invalid configuration'`
and return null; otherwise store the config, construct the client and return
it, catching a construction exception by recording its message and
returning null. -/
def initializeClient (st : HolderState) (config : SupabaseConfig)
    (ctor : Except JsException Unit) : Option CreatedClient × HolderState :=
  match st.client with
  | some c => (some c, st)
  | none =>
    if jsTruthyStr st.initializationError then
      (none, st)
    else
      let validation := validateSupabaseConfig config
      if !validation.valid then
        (none, { st with initializationError := some (jsOrStr validation.error "Invalid configuration") })
      else
        let st1 := { st with config := some config }
        match ctor with
        | .ok _ =>
          (some (createClient config), { st1 with client := some (createClient config) })
        | .error e =>
          (none, { st1 with initializationError := some (jsExceptionMessage e) })

/-- The generic message of `SupabaseClientSingleton.getClient` when no error
string is recorded. -/
def notInitializedMessage : String :=
  "Supabase client not initialized. Call initialize() first with configuration."

/-- `SupabaseClientSingleton.getClient()`: the stored client, or a thrown
`SupabaseInitializationError` whose message is
`this.initializationError || <generic message>`. The method reads the
holder's fields and writes none. -/
def getClient (st : HolderState) : Except SupabaseError CreatedClient :=
  match st.client with
  | none =>
    Except.error (SupabaseInitializationError (jsOrStr st.initializationError notInitializedMessage))
  | some c => Except.ok c

/-- `SupabaseClientSingleton.isInitialized()`: `this.client !== null`. -/
def isInitialized (st : HolderState) : Bool :=
  st.client.isSome

/-- `SupabaseClientSingleton.getInitializationError()`: the recorded string
or null. -/
def getInitializationError (st : HolderState) : Option String :=
  st.initializationError

/-- `SupabaseClientSingleton.reset()`: null out all three fields. -/
def reset (_st : HolderState) : HolderState :=
  { client := none, initializationError := none, config := none }

/-- The session-key filter of `clearSessionCache`: a stored key is deleted
when it contains one of the substrings `supabase`, `auth`, `session`, `sb-`. -/
def isSessionKey (key : String) : Bool :=
  jsIncludes key "supabase" || jsIncludes key "auth"
    || jsIncludes key "session" || jsIncludes key "sb-"

/-- The externally visible operations `clearSessionCache` performs, in
order: the client's `auth.signOut()`, then one `AsyncStorage.multiRemove`
of the filtered keys. -/
inductive CacheEffect where
  | signOut
  | removeKeys (keys : List String)
  deriving DecidableEq, Repr

/-- The `try` block of `SupabaseClientSingleton.clearSessionCache()`, before
the surrounding catch: with a stored client, sign out, enumerate the store's
keys, filter them with `isSessionKey`, and batch-delete the matches when
there are any. The three Booleans say whether the external sign-out, key
enumeration and batch delete return normally; a `false` one makes the block
throw at that point. Yields the performed effects and the store's keys
afterwards. -/
def clearSessionCacheTry (st : HolderState) (store : List String)
    (signOutOk getKeysOk removeOk : Bool) :
    Except JsException (List CacheEffect × List String) :=
  match st.client with
  | none => Except.ok ([], store)
  | some _ =>
    if !signOutOk then Except.error JsException.nonErrorValue
    else if !getKeysOk then Except.error JsException.nonErrorValue
    else
      let sessionKeys := store.filter isSessionKey
      if sessionKeys.length > 0 then
        if !removeOk then Except.error JsException.nonErrorValue
        else
          Except.ok ([CacheEffect.signOut, CacheEffect.removeKeys sessionKeys],
            store.filter (fun k => !(isSessionKey k)))
      else Except.ok ([CacheEffect.signOut], store)

/-- `SupabaseClientSingleton.clearSessionCache()`: the try block with its
silent catch. A caught exception is swallowed (the model then reports the
store as it was before the call: the batch delete is all-or-nothing for the
modelled store, and the claims assert nothing about the store on the failure
path). The result is `.ok` in every case exactly because the method never
propagates a failure. -/
def clearSessionCache (st : HolderState) (store : List String)
    (signOutOk getKeysOk removeOk : Bool) :
    Except JsException (List CacheEffect × List String) :=
  match clearSessionCacheTry st store signOutOk getKeysOk removeOk with
  | Except.ok r => Except.ok r
  | Except.error _ => Except.ok ([], store)

/-- One call on the holder's public surface, with the outcomes of the
external collaborators the call consults carried as data: a reachable holder
state is one produced by a sequence of these from `emptyHolder`. -/
inductive HolderOp where
  | initOp (config : SupabaseConfig) (ctor : Except JsException Unit)
  | getClientOp
  | isInitializedOp
  | getErrorOp
  | clearCacheOp (store : List String) (signOutOk getKeysOk removeOk : Bool)
  | resetOp
  deriving Repr

/-- The holder state after one call: only `initialize` and `reset` write the
holder's fields; `getClient`, `isInitialized`, `getInitializationError` and
`clearSessionCache` read them (the session-cache clearing writes the
external store, not the holder). -/
def step (st : HolderState) : HolderOp → HolderState
  | HolderOp.initOp config ctor => (initializeClient st config ctor).2
  | HolderOp.getClientOp => st
  | HolderOp.isInitializedOp => st
  | HolderOp.getErrorOp => st
  | HolderOp.clearCacheOp _ _ _ _ => st
  | HolderOp.resetOp => reset st

/-- The holder state reached from the empty initial state by a sequence of
calls. -/
def execOps (ops : List HolderOp) : HolderState :=
  ops.foldl step emptyHolder

/-- A configuration the validator accepts (the spec's end-to-end example). -/
def goodConfig : SupabaseConfig :=
  { url := "https://x.supabase.co", anonKey := "abc123" }

/-- A second accepted configuration, differing from `goodConfig`. -/
def otherConfig : SupabaseConfig :=
  { url := "https://example.org", anonKey := "zyx987", schema := some "tenant" }

/-- The spec's malformed-url example. -/
def notAUrlConfig : SupabaseConfig :=
  { url := "not-a-url", anonKey := "abc123" }

/-- The spec's empty-key example. -/
def emptyKeyConfig : SupabaseConfig :=
  { url := "https://x.supabase.co", anonKey := "" }

/-- A configuration with a placeholder substring in the url. -/
def placeholderConfig : SupabaseConfig :=
  { url := "https://your-project.supabase.co", anonKey := "abc123" }

/-- A valid configuration whose optional schema is the empty string and
whose optional heartbeat interval is `0`: both are JavaScript-falsy, so the
`||` defaults apply although the caller supplied values. -/
def fallbackConfig : SupabaseConfig :=
  { url := "https://example.org", anonKey := "abc123",
    schema := some "", realtimeHeartbeatIntervalMs := some 0 }

/-- A non-empty-string `Option` that JavaScript treats as falsy is null or
the empty string. -/
theorem jsTruthyStr_eq_false_iff (o : Option String) :
    jsTruthyStr o = false ↔ o = none ∨ o = some "" := by
  cases o with
  | none => simp [jsTruthyStr]
  | some s => simp [jsTruthyStr]

/-- C1 (corrected: the recorded error must be non-empty, since JavaScript's
`if (this.initializationError)` treats the empty string as falsy): for every
holder state recording a non-empty initialization error string and storing
no client, `initialize(config)` returns null for every configuration and
every external-constructor behaviour, and leaves the holder state — client,
error and stored configuration — exactly as it was. -/
theorem fail_closed_retry_lock (st : HolderState) (config : SupabaseConfig)
    (ctor : Except JsException Unit) (e : String)
    (hclient : st.client = none) (herr : st.initializationError = some e)
    (hne : e ≠ "") :
    initializeClient st config ctor = (none, st) := by
  obtain ⟨cl, err, cfg0⟩ := st
  simp only at hclient herr
  subst hclient herr
  simp [initializeClient, jsTruthyStr, hne]

/-- Witness for C1: a holder that recorded the error `boom` refuses a retry
with the spec's own valid example configuration and stays unchanged. -/
theorem fail_closed_retry_lock_witness :
    initializeClient ⟨none, some "boom", none⟩ goodConfig (Except.ok ()) =
      (none, ⟨none, some "boom", none⟩) :=
  fail_closed_retry_lock ⟨none, some "boom", none⟩ goodConfig (Except.ok ()) "boom"
    rfl rfl (by decide)

/-- Counterexample to C1 as stated: the holder state that records the empty
string as its initialization error (reachable when the external constructor
throws an `Error` whose message is empty) has an error string recorded and
no client, yet `initialize` with a valid configuration re-runs validation
and construction, returns a non-null client and transitions the holder to
Initialized instead of returning null. -/
theorem fail_closed_retry_lock_counterexample :
    (⟨none, some "", none⟩ : HolderState).initializationError.isSome = true
    ∧ (validateSupabaseConfig goodConfig).valid = true
    ∧ (initializeClient ⟨none, some "", none⟩ goodConfig (Except.ok ())).1.isSome = true
    ∧ (initializeClient ⟨none, some "", none⟩ goodConfig (Except.ok ())).2.client.isSome = true :=
  ⟨rfl, by decide, by decide, by decide⟩

/-- C2: once a client is stored, every further `initialize(config2)` call,
for every configuration and every external-constructor behaviour, returns
the stored client and leaves the holder state (client, error, stored first
configuration) unmodified. -/
theorem idempotent_after_success (st : HolderState) (config : SupabaseConfig)
    (ctor : Except JsException Unit) (c : CreatedClient) (h : st.client = some c) :
    initializeClient st config ctor = (some c, st) := by
  obtain ⟨cl, err, cfg0⟩ := st
  simp only at h
  subst h
  simp [initializeClient]

/-- Witness for C2: a holder initialized with the spec's example
configuration answers a second call carrying a differing valid
configuration with the first client, unchanged state. -/
theorem idempotent_after_success_witness :
    initializeClient ⟨some (createClient goodConfig), none, some goodConfig⟩
      otherConfig (Except.ok ()) =
      (some (createClient goodConfig),
        ⟨some (createClient goodConfig), none, some goodConfig⟩) :=
  idempotent_after_success ⟨some (createClient goodConfig), none, some goodConfig⟩
    otherConfig (Except.ok ()) (createClient goodConfig) rfl

/-- C5: a construction exception never escapes `initialize`: whenever the
holder reaches the construction step (no client stored, no truthy recorded
error, configuration valid) and the external constructor throws `e`, the
call returns null, records the exception's message when `e` is an `Error`
and the generic construction-failure message otherwise, stores the
configuration, and surfaces the failure through `getInitializationError`. -/
theorem construction_failure_recorded (st : HolderState) (config : SupabaseConfig)
    (e : JsException)
    (hclient : st.client = none) (herr : jsTruthyStr st.initializationError = false)
    (hvalid : (validateSupabaseConfig config).valid = true) :
    initializeClient st config (Except.error e) =
      (none, ⟨none, some (jsExceptionMessage e), some config⟩)
    ∧ jsExceptionMessage e = (match e with
        | JsException.jsError m => m
        | JsException.nonErrorValue => "Failed to initialize Supabase client")
    ∧ getInitializationError (initializeClient st config (Except.error e)).2 =
        some (jsExceptionMessage e) := by
  obtain ⟨cl, err, cfg0⟩ := st
  simp only at hclient herr
  subst hclient
  refine ⟨?_, rfl, ?_⟩ <;>
    simp [initializeClient, getInitializationError, herr, hvalid]

/-- Witness for C5: from the empty holder with the spec's valid example
configuration, a constructor throwing `Error("bad")` leaves a null client,
the recorded message `bad` and the stored configuration. -/
theorem construction_failure_recorded_witness :
    initializeClient emptyHolder goodConfig (Except.error (JsException.jsError "bad")) =
      (none, ⟨none, some "bad", some goodConfig⟩) :=
  (construction_failure_recorded emptyHolder goodConfig (JsException.jsError "bad")
    rfl rfl (by decide)).1

/-- C7: `reset()` from any holder state clears the client, the error string
and the stored configuration, so `isInitialized` is false and
`getInitializationError` is null, and a following `initialize` with a
configuration the validator accepts (and a normally returning external
constructor) succeeds: it returns the constructed client and the holder is
Initialized. -/
theorem reset_clears_all (st : HolderState) (config : SupabaseConfig)
    (hvalid : (validateSupabaseConfig config).valid = true) :
    reset st = emptyHolder
    ∧ isInitialized (reset st) = false
    ∧ getInitializationError (reset st) = none
    ∧ (reset st).config = none
    ∧ initializeClient (reset st) config (Except.ok ()) =
        (some (createClient config), ⟨some (createClient config), none, some config⟩)
    ∧ isInitialized (initializeClient (reset st) config (Except.ok ())).2 = true := by
  refine ⟨rfl, rfl, rfl, rfl, ?_, ?_⟩ <;>
    simp [initializeClient, reset, emptyHolder, isInitialized, jsTruthyStr, hvalid]

/-- Witness for C7: resetting a holder that recorded a failure re-enables
initialization with the spec's valid example configuration. -/
theorem reset_clears_all_witness :
    initializeClient (reset ⟨none, some "failed", none⟩) goodConfig (Except.ok ()) =
      (some (createClient goodConfig),
        ⟨some (createClient goodConfig), none, some goodConfig⟩) :=
  (reset_clears_all ⟨none, some "failed", none⟩ goodConfig (by decide)).2.2.2.2.1

/-- C10: configuration retention on construction failure: from the empty
holder, when validation accepts the configuration but the external
constructor throws, the error is recorded, the client stays null, and the
stored configuration remains the failed configuration (not rolled back);
when validation rejects, the stored configuration stays null — so an
Uninitialized holder can hold a non-null configuration. -/
theorem config_retention_on_failure (config : SupabaseConfig) (e : JsException) :
    ((validateSupabaseConfig config).valid = true →
      initializeClient emptyHolder config (Except.error e) =
        (none, ⟨none, some (jsExceptionMessage e), some config⟩))
    ∧ (∀ ctor, (validateSupabaseConfig config).valid = false →
        (initializeClient emptyHolder config ctor).2.config = none
        ∧ (initializeClient emptyHolder config ctor).2.client = none)
    ∧ ((validateSupabaseConfig config).valid = true →
        (initializeClient emptyHolder config (Except.error e)).2.client = none
        ∧ (initializeClient emptyHolder config (Except.error e)).2.config = some config) := by
  refine ⟨fun hvalid => ?_, fun ctor hinvalid => ?_, fun hvalid => ?_⟩ <;>
    simp [initializeClient, emptyHolder, jsTruthyStr, *]

/-- Witness for C10: a non-`Error` throw from the constructor on the spec's
valid example configuration leaves an Uninitialized holder that still holds
that configuration. -/
theorem config_retention_on_failure_witness :
    (initializeClient emptyHolder goodConfig (Except.error JsException.nonErrorValue)).2.client = none
    ∧ (initializeClient emptyHolder goodConfig (Except.error JsException.nonErrorValue)).2.config = some goodConfig :=
  (config_retention_on_failure goodConfig JsException.nonErrorValue).2.2 (by decide)

/-- C8 (corrected: the source derives schema and heartbeat with JavaScript
`||`, so a supplied-but-falsy value — empty schema, zero interval — falls
back to the default; only the three booleans use `??` and keep every
supplied value): for every configuration accepted by validation, from any
state that reaches construction, `initialize` constructs the external client
with the caller-supplied storage adapter when one is provided and the
default platform adapter otherwise, the caller-supplied schema when provided
and non-empty and `public` otherwise, the caller-supplied heartbeat interval
when provided and non-zero and `30000` otherwise, and
auto-refresh/persist/detect-in-url flags equal to the caller-supplied
booleans when provided and `true`/`true`/`false` when absent. -/
theorem derived_construction_settings (st : HolderState) (config : SupabaseConfig)
    (hclient : st.client = none) (herr : jsTruthyStr st.initializationError = false)
    (hvalid : (validateSupabaseConfig config).valid = true) :
    initializeClient st config (Except.ok ()) =
      (some (createClient config),
        { st with client := some (createClient config), config := some config })
    ∧ (createClient config).url = config.url
    ∧ (createClient config).anonKey = config.anonKey
    ∧ (createClient config).authStorage = (match config.storage with
        | some id => StorageAdapter.caller id
        | none => StorageAdapter.asyncStorageDefault)
    ∧ (createClient config).autoRefreshToken = (match config.autoRefreshToken with
        | some b => b
        | none => true)
    ∧ (createClient config).persistSession = (match config.persistSession with
        | some b => b
        | none => true)
    ∧ (createClient config).detectSessionInUrl = (match config.detectSessionInUrl with
        | some b => b
        | none => false)
    ∧ (createClient config).dbSchema = (match config.schema with
        | some s => if s = "" then "public" else s
        | none => "public")
    ∧ (createClient config).realtimeHeartbeatIntervalMs =
        (match config.realtimeHeartbeatIntervalMs with
        | some n => if n = 0 then 30000 else n
        | none => 30000) := by
  obtain ⟨cl, err, cfg0⟩ := st
  simp only at hclient herr
  subst hclient
  refine ⟨by simp [initializeClient, herr, hvalid], rfl, rfl, ?_, ?_, ?_, ?_, ?_, ?_⟩
  · cases h : config.storage <;> simp [createClient, selectStorage, h]
  · cases h : config.autoRefreshToken <;> simp [createClient, h]
  · cases h : config.persistSession <;> simp [createClient, h]
  · cases h : config.detectSessionInUrl <;> simp [createClient, h]
  · cases h : config.schema with
    | none => simp [createClient, jsOrStr, h]
    | some s =>
      simp only [createClient, jsOrStr, h]
      by_cases hs : s = "" <;> simp [hs]
  · cases h : config.realtimeHeartbeatIntervalMs with
    | none => simp [createClient, jsOrNat, h]
    | some n =>
      simp only [createClient, jsOrNat, h]
      by_cases hn : n = 0 <;> simp [hn]

/-- Witness for C8: `otherConfig` supplies a non-empty schema and leaves the
rest absent; initialization from the empty holder stores the client built
from it. -/
theorem derived_construction_settings_witness :
    initializeClient emptyHolder otherConfig (Except.ok ()) =
      (some (createClient otherConfig),
        ⟨some (createClient otherConfig), none, some otherConfig⟩) :=
  (derived_construction_settings emptyHolder otherConfig rfl rfl (by decide)).1

/-- Counterexample to C8 as stated: `fallbackConfig` supplies the schema
(the empty string) and the heartbeat interval (`0`), yet the client is
constructed with schema `public` and heartbeat `30000`, not with the
caller-supplied values. -/
theorem derived_construction_settings_counterexample :
    fallbackConfig.schema = some ""
    ∧ fallbackConfig.realtimeHeartbeatIntervalMs = some 0
    ∧ (validateSupabaseConfig fallbackConfig).valid = true
    ∧ (initializeClient emptyHolder fallbackConfig (Except.ok ())).1 =
        some (createClient fallbackConfig)
    ∧ (createClient fallbackConfig).dbSchema = "public"
    ∧ (createClient fallbackConfig).realtimeHeartbeatIntervalMs = 30000 :=
  ⟨rfl, rfl, by decide, by decide, rfl, rfl⟩

/-- Every step of the holder preserves the invariant that a stored client
rules out a JavaScript-truthy (non-empty) recorded error: `initialize`
either returns early, records an error while the client stays null, or
constructs a client without touching the falsy recorded error; `reset`
clears everything; the remaining operations do not write the holder. -/
theorem step_preserves_mutual_exclusion (st : HolderState) (op : HolderOp)
    (h : st.client.isSome = true →
      st.initializationError = none ∨ st.initializationError = some "") :
    (step st op).client.isSome = true →
      (step st op).initializationError = none
      ∨ (step st op).initializationError = some "" := by
  cases op with
  | getClientOp => exact h
  | isInitializedOp => exact h
  | getErrorOp => exact h
  | clearCacheOp store a b c => exact h
  | resetOp => intro hc; exact absurd hc (by simp [step, reset])
  | initOp config ctor =>
    obtain ⟨cl, err, cfg0⟩ := st
    cases cl with
    | some c => exact h
    | none =>
      cases htruthy : jsTruthyStr err with
      | true => simp [step, initializeClient, htruthy]
      | false =>
        cases hv : (validateSupabaseConfig config).valid with
        | false => simp [step, initializeClient, htruthy, hv]
        | true =>
          cases ctor with
          | error e => simp [step, initializeClient, htruthy, hv]
          | ok u =>
            intro _
            rcases (jsTruthyStr_eq_false_iff err).mp htruthy with h0 | h0 <;>
              subst h0 <;> simp [step, initializeClient, jsTruthyStr, hv]

/-- The invariant holds along every fold of `step` whose start state
satisfies it. -/
theorem foldl_preserves_mutual_exclusion :
    ∀ (ops : List HolderOp) (st : HolderState),
    (st.client.isSome = true →
      st.initializationError = none ∨ st.initializationError = some "") →
    ((ops.foldl step st).client.isSome = true →
      (ops.foldl step st).initializationError = none
      ∨ (ops.foldl step st).initializationError = some "")
  | [], _, h => h
  | op :: ops, st, h =>
    foldl_preserves_mutual_exclusion ops (step st op)
      (step_preserves_mutual_exclusion st op h)

/-- C9 (corrected: on the only reachable overlap, the recorded error is the
empty string — recorded by a construction failure whose `Error` message was
empty and then ignored as falsy — so client and error can be non-null
together, but the error a client coexists with is never a non-empty
string): in every holder state reachable from the empty initial state by
any sequence of the six public calls, whenever a client is stored the
recorded initialization error is null or the empty string — in particular
`isInitialized()` true implies `getInitializationError()` carries no
non-empty message. -/
theorem mutual_exclusion_reachable (ops : List HolderOp)
    (h : (execOps ops).client.isSome = true) :
    (execOps ops).initializationError = none
    ∨ (execOps ops).initializationError = some "" :=
  foldl_preserves_mutual_exclusion ops emptyHolder
    (fun hc => absurd hc (by simp [emptyHolder])) h

/-- Witness for C9: after one successful initialization from the empty
state, the stored client coexists with no recorded error. -/
theorem mutual_exclusion_reachable_witness :
    (execOps [HolderOp.initOp goodConfig (Except.ok ())]).initializationError = none
    ∨ (execOps [HolderOp.initOp goodConfig (Except.ok ())]).initializationError = some "" :=
  mutual_exclusion_reachable [HolderOp.initOp goodConfig (Except.ok ())] (by decide)

/-- Counterexample to C9 as stated: the two-call trace in which the external
constructor first throws `Error("")` and then returns normally reaches a
state where the client reference and the initialization-error string are
both set (non-null). -/
theorem mutual_exclusion_counterexample :
    (execOps [HolderOp.initOp goodConfig (Except.error (JsException.jsError "")),
      HolderOp.initOp goodConfig (Except.ok ())]).client.isSome = true
    ∧ (execOps [HolderOp.initOp goodConfig (Except.error (JsException.jsError "")),
      HolderOp.initOp goodConfig (Except.ok ())]).initializationError.isSome = true :=
  ⟨by decide, by decide⟩

/-- C3 (corrected: when the recorded error string is empty, JavaScript's
`this.initializationError || <generic>` selects the generic message, so the
failure message equals the recorded string only when that string is
non-empty): `getClient()` fails exactly when no client is stored; the
failure is a `SupabaseInitializationError` (name and code as in
`SupabaseError.ts`) whose message is the recorded error string when a
non-empty one is recorded and the generic not-initialized message otherwise
(nothing recorded, or the empty string recorded); with a stored client it
returns exactly that client; and the call does not change the holder
state. -/
theorem getClient_contract (st : HolderState) :
    ((∃ err, getClient st = Except.error err) ↔ st.client = none)
    ∧ (∀ c, st.client = some c → getClient st = Except.ok c)
    ∧ (st.client = none →
        getClient st = Except.error (SupabaseInitializationError
          (jsOrStr st.initializationError notInitializedMessage)))
    ∧ (∀ e, st.client = none → st.initializationError = some e → e ≠ "" →
        getClient st = Except.error (SupabaseInitializationError e))
    ∧ (st.client = none → st.initializationError = none →
        getClient st = Except.error (SupabaseInitializationError notInitializedMessage))
    ∧ (st.client = none → st.initializationError = some "" →
        getClient st = Except.error (SupabaseInitializationError notInitializedMessage))
    ∧ (SupabaseInitializationError
        (jsOrStr st.initializationError notInitializedMessage)).code = some "INITIALIZATION_ERROR"
    ∧ (SupabaseInitializationError
        (jsOrStr st.initializationError notInitializedMessage)).name = "SupabaseInitializationError"
    ∧ step st HolderOp.getClientOp = st := by
  obtain ⟨cl, err, cfg0⟩ := st
  refine ⟨?_, ?_, ?_, ?_, ?_, ?_, rfl, rfl, rfl⟩
  · cases cl <;> simp [getClient]
  · intro c hc
    simp only at hc
    subst hc
    rfl
  · intro hc
    simp only at hc
    subst hc
    rfl
  · intro e hc he hne
    simp only at hc he
    subst hc
    subst he
    simp [getClient, jsOrStr, hne]
  · intro hc he
    simp only at hc he
    subst hc
    subst he
    rfl
  · intro hc he
    simp only at hc he
    subst hc
    subst he
    rfl

/-- Witness for C3: applied to a holder that recorded the non-empty error
`failed to reach host`, `getClient` fails with exactly that message. -/
theorem getClient_contract_witness :
    getClient ⟨none, some "failed to reach host", none⟩ =
      Except.error (SupabaseInitializationError "failed to reach host") :=
  (getClient_contract ⟨none, some "failed to reach host", none⟩).2.2.2.1
    "failed to reach host" rfl rfl (by decide)

/-- Counterexample to C3 as stated: on the holder whose recorded
initialization-error string is the empty string (one exists — it is
recorded), `getClient` fails with the generic not-initialized message, not
with the recorded string. -/
theorem getClient_contract_counterexample :
    getClient ⟨none, some "", none⟩ =
      Except.error (SupabaseInitializationError notInitializedMessage)
    ∧ notInitializedMessage ≠ "" :=
  ⟨rfl, by decide⟩

/-- Every configuration is either accepted with no error field, or rejected
with a non-empty error string: the validator's five outcomes enumerated. -/
theorem validateSupabaseConfig_cases (config : SupabaseConfig) :
    validateSupabaseConfig config = { valid := true, error := none }
    ∨ ∃ e, validateSupabaseConfig config = { valid := false, error := some e } ∧ e ≠ "" := by
  unfold validateSupabaseConfig
  by_cases h1 : config.url == ""
  · exact Or.inr ⟨"Supabase URL is required and must be a string", by simp [h1], by decide⟩
  · by_cases h2 : config.anonKey == ""
    · exact Or.inr ⟨"Supabase anon key is required and must be a string", by simp [h1, h2], by decide⟩
    · cases hp : parseURLProtocol config.url with
      | none => exact Or.inr ⟨"Invalid Supabase URL format", by simp [h1, h2, hp], by decide⟩
      | some protocol =>
        by_cases h3 : protocol != "http:" && protocol != "https:"
        · exact Or.inr ⟨"Supabase URL must use http:// or https:// protocol", by simp [h1, h2, hp, h3], by decide⟩
        · by_cases h4 : (jsTrim config.anonKey).length == 0
          · exact Or.inr ⟨"Supabase anon key cannot be empty", by simp [h1, h2, hp, h3, h4], by decide⟩
          · by_cases h5 : jsIncludes config.anonKey "your_supabase_anon_key"
                || jsIncludes config.url "your-project"
            · exact Or.inr ⟨"Please replace placeholder values with actual Supabase credentials", by simp [h1, h2, hp, h3, h4, h5], by decide⟩
            · exact Or.inl (by simp [h1, h2, hp, h3, h4, h5])

/-- C4: the validator is the short-circuiting run, in order, of exactly the
five checks the spec lists (presence of url and key, url well-formed with
scheme http or https, key non-blank after trimming, no placeholder
substrings); every rejection carries a non-empty error string and every
acceptance carries none; the spec's malformed-url, empty-key and
placeholder examples are rejected, the valid example accepted; and
`initialize` with a rejected configuration leaves the holder
Uninitialized. -/
theorem validator_order_and_completeness :
    (∀ config, validateSupabaseConfig config = runChecksInOrder config)
    ∧ (∀ config, (validateSupabaseConfig config).valid = false →
        ∃ e, (validateSupabaseConfig config).error = some e ∧ e ≠ "")
    ∧ (∀ config, (validateSupabaseConfig config).valid = true →
        (validateSupabaseConfig config).error = none)
    ∧ (validateSupabaseConfig notAUrlConfig).valid = false
    ∧ (validateSupabaseConfig emptyKeyConfig).valid = false
    ∧ (validateSupabaseConfig placeholderConfig).valid = false
    ∧ validateSupabaseConfig goodConfig = { valid := true, error := none }
    ∧ (∀ st config ctor, st.client = none →
        (validateSupabaseConfig config).valid = false →
        (initializeClient st config ctor).1 = none
        ∧ (initializeClient st config ctor).2.client = none) := by
  refine ⟨?_, ?_, ?_, by decide, by decide, by decide, by decide, ?_⟩
  · intro config
    unfold validateSupabaseConfig runChecksInOrder validationChecks
    simp only [List.findSome?]
    unfold checkUrlPresent checkKeyPresent checkUrlWellFormed checkKeyNonBlank checkNoPlaceholder
    by_cases h1 : config.url == ""
    · simp [h1]
    · by_cases h2 : config.anonKey == ""
      · simp [h1, h2]
      · cases hp : parseURLProtocol config.url with
        | none => simp [h1, h2, hp]
        | some protocol =>
          by_cases h3 : protocol != "http:" && protocol != "https:"
          · simp [h1, h2, hp, h3]
          · by_cases h4 : (jsTrim config.anonKey).length == 0
            · simp [h1, h2, hp, h3, h4]
            · by_cases h5 : jsIncludes config.anonKey "your_supabase_anon_key"
                  || jsIncludes config.url "your-project"
              · simp [h1, h2, hp, h3, h4, h5]
              · simp [h1, h2, hp, h3, h4, h5]
  · intro config hvalid
    rcases validateSupabaseConfig_cases config with h | ⟨e, h, hne⟩
    · rw [h] at hvalid; simp at hvalid
    · exact ⟨e, by rw [h], hne⟩
  · intro config hvalid
    rcases validateSupabaseConfig_cases config with h | ⟨e, h, hne⟩
    · rw [h]
    · rw [h] at hvalid; simp at hvalid
  · intro st config ctor hclient hinvalid
    obtain ⟨cl, err, cfg0⟩ := st
    simp only at hclient
    subst hclient
    cases htruthy : jsTruthyStr err with
    | true => simp [initializeClient, htruthy]
    | false => simp [initializeClient, htruthy, hinvalid]

/-- Witness for C4: the rejection of the malformed url is reported with a
non-empty error string. -/
theorem validator_order_and_completeness_witness :
    ∃ e, (validateSupabaseConfig notAUrlConfig).error = some e ∧ e ≠ "" :=
  validator_order_and_completeness.2.1 notAUrlConfig (by decide)

/-- C6: `clearSessionCache` on a holder with a stored client signs out and
then batch-deletes exactly the stored keys containing one of the substrings
`supabase`, `auth`, `session`, `sb-`, leaving all other keys untouched (on
the spec's four-key store it removes exactly the first and third); and for
every holder state, store and combination of external failures (sign-out,
key enumeration, deletion) the call completes normally — no exception
propagates. -/
theorem clear_session_cache_contract :
    (∀ st store c, st.client = some c →
      clearSessionCache st store true true true =
        Except.ok
          (CacheEffect.signOut ::
            (if (store.filter isSessionKey).length > 0 then
              [CacheEffect.removeKeys (store.filter isSessionKey)] else []),
           store.filter (fun k => !(isSessionKey k))))
    ∧ (clearSessionCache ⟨some (createClient goodConfig), none, some goodConfig⟩
        ["sb-access-token", "user-settings", "supabase.auth.token", "theme"] true true true =
        Except.ok ([CacheEffect.signOut,
            CacheEffect.removeKeys ["sb-access-token", "supabase.auth.token"]],
          ["user-settings", "theme"]))
    ∧ (∀ st store signOutOk getKeysOk removeOk,
        ∃ r, clearSessionCache st store signOutOk getKeysOk removeOk = Except.ok r) := by
  refine ⟨?_, by rfl, ?_⟩
  · intro st store c h
    obtain ⟨cl, err, cfg0⟩ := st
    simp only at h
    subst h
    simp only [clearSessionCache, clearSessionCacheTry]
    by_cases hlen : (store.filter isSessionKey).length > 0
    · simp [hlen]
    · have hnil : store.filter isSessionKey = [] := by
        cases hf : store.filter isSessionKey with
        | nil => rfl
        | cons a l => rw [hf] at hlen; simp at hlen
      have hfilter : store.filter (fun k => !(isSessionKey k)) = store := by
        rw [List.filter_eq_self]
        intro a ha
        have : ¬ (isSessionKey a = true) := (List.filter_eq_nil_iff.mp hnil) a ha
        simp [this]
      simp [hlen, hfilter]
  · intro st store signOutOk getKeysOk removeOk
    cases htry : clearSessionCacheTry st store signOutOk getKeysOk removeOk with
    | ok r => exact ⟨r, by simp [clearSessionCache, htry]⟩
    | error ex => exact ⟨([], store), by simp [clearSessionCache, htry]⟩

/-- Witness for C6: on a holder with a stored client and a store holding one
session key and one unrelated key, the successful path removes exactly the
session key. -/
theorem clear_session_cache_contract_witness :
    clearSessionCache ⟨some (createClient goodConfig), none, some goodConfig⟩
      ["sb-session", "theme"] true true true =
      Except.ok ([CacheEffect.signOut, CacheEffect.removeKeys ["sb-session"]], ["theme"]) :=
  clear_session_cache_contract.1 ⟨some (createClient goodConfig), none, some goodConfig⟩
    ["sb-session", "theme"] (createClient goodConfig) rfl

end RNSupabase
